import Mathlib

set_option maxRecDepth 100000

/-!
Shallow embedding of the NEAR contract `AdaptiveCrossChain`
(src/near-contracts/src/lib.rs): hashlock derivation (SHA-256, hex),
the cross-chain risk model, and the order state machine with the
adaptive-slippage controller.  Contract state is modelled as explicit
association lists; fallible entry points return `Except String`, the
error strings being the literal panic messages of the source.  All
arithmetic in the source is on `u64`/`u128`; the embedding uses `Nat`
after checking that no operation reachable in these definitions can
overflow or underflow a machine word (sums of basis points are bounded
by 225 + `max_slippage_deviation` in the only branch where an addition
occurs with `max_slippage_deviation < 225`, and every subtraction is
guarded by the comparison just above it in the source).
-/

namespace AdaptiveCrossChain

/-! ### SHA-256 (`generate_hashlock` uses `sha2::Sha256` and `hex::encode`) -/

namespace SHA256

def w32 : Nat := 4294967296

def add32 (a b : Nat) : Nat := (a + b) % w32

def rotr (n x : Nat) : Nat := ((x >>> n) ||| (x <<< (32 - n))) % w32

def bSigma0 (x : Nat) : Nat := (rotr 2 x) ^^^ (rotr 13 x) ^^^ (rotr 22 x)

def bSigma1 (x : Nat) : Nat := (rotr 6 x) ^^^ (rotr 11 x) ^^^ (rotr 25 x)

def sSigma0 (x : Nat) : Nat := (rotr 7 x) ^^^ (rotr 18 x) ^^^ (x >>> 3)

def sSigma1 (x : Nat) : Nat := (rotr 17 x) ^^^ (rotr 19 x) ^^^ (x >>> 10)

def ch (x y z : Nat) : Nat := (x &&& y) ^^^ ((x ^^^ 4294967295) &&& z)

def maj (x y z : Nat) : Nat := (x &&& y) ^^^ (x &&& z) ^^^ (y &&& z)

/-- The 64 round constants of FIPS 180-4 (decimal form). -/
def K : List Nat :=
  [1116352408, 1899447441, 3049323471, 3921009573,
   961987163, 1508970993, 2453635748, 2870763221,
   3624381080, 310598401, 607225278, 1426881987,
   1925078388, 2162078206, 2614888103, 3248222580,
   3835390401, 4022224774, 264347078, 604807628,
   770255983, 1249150122, 1555081692, 1996064986,
   2554220882, 2821834349, 2952996808, 3210313671,
   3336571891, 3584528711, 113926993, 338241895,
   666307205, 773529912, 1294757372, 1396182291,
   1695183700, 1986661051, 2177026350, 2456956037,
   2730485921, 2820302411, 3259730800, 3345764771,
   3516065817, 3600352804, 4094571909, 275423344,
   430227734, 506948616, 659060556, 883997877,
   958139571, 1322822218, 1537002063, 1747873779,
   1955562222, 2024104815, 2227730452, 2361852424,
   2428436474, 2756734187, 3204031479, 3329325298]

/-- The eight initial hash words of FIPS 180-4 (decimal form). -/
def H0 : List Nat :=
  [1779033703, 3144134277, 1013904242, 2773480762,
   1359893119, 2600822924, 528734635, 1541459225]

/-- Big-endian packing of a byte stream into 32-bit words. -/
def bytesToWords : List Nat → List Nat
  | b0 :: b1 :: b2 :: b3 :: rest =>
      (b0 * 16777216 + b1 * 65536 + b2 * 256 + b3) :: bytesToWords rest
  | _ => []

/-- Message-schedule extension: 16 block words grow to 64. -/
def buildW (block : List Nat) : List Nat :=
  (List.range 48).foldl
    (fun w _ =>
      let t := w.length
      w ++ [add32 (add32 (sSigma1 (w.getD (t - 2) 0)) (w.getD (t - 7) 0))
                  (add32 (sSigma0 (w.getD (t - 15) 0)) (w.getD (t - 16) 0))])
    block

/-- One SHA-256 compression round over the working tuple `(a,…,h)`. -/
def round (wt kt : Nat)
    (st : Nat × Nat × Nat × Nat × Nat × Nat × Nat × Nat) :
    Nat × Nat × Nat × Nat × Nat × Nat × Nat × Nat :=
  let (a, b, c, d, e, f, g, h) := st
  let t1 := add32 h (add32 (bSigma1 e) (add32 (ch e f g) (add32 kt wt)))
  let t2 := add32 (bSigma0 a) (maj a b c)
  (add32 t1 t2, a, b, c, add32 d t1, e, f, g)

/-- Compress one 64-byte block into the running hash (8 words). -/
def compress (hs : List Nat) (block : List Nat) : List Nat :=
  let w := buildW (bytesToWords block)
  let init := (hs.getD 0 0, hs.getD 1 0, hs.getD 2 0, hs.getD 3 0,
               hs.getD 4 0, hs.getD 5 0, hs.getD 6 0, hs.getD 7 0)
  let fin := (List.range 64).foldl
    (fun st t => round (w.getD t 0) (K.getD t 0) st) init
  let (a, b, c, d, e, f, g, h) := fin
  [add32 (hs.getD 0 0) a, add32 (hs.getD 1 0) b, add32 (hs.getD 2 0) c,
   add32 (hs.getD 3 0) d, add32 (hs.getD 4 0) e, add32 (hs.getD 5 0) f,
   add32 (hs.getD 6 0) g, add32 (hs.getD 7 0) h]

def processBlocks : Nat → List Nat → List Nat → List Nat
  | 0, hs, _ => hs
  | n + 1, hs, msg => processBlocks n (compress hs (msg.take 64)) (msg.drop 64)

/-- Big-endian 8-byte encoding of the bit length. -/
def lengthBytes (n : Nat) : List Nat :=
  [(n >>> 56) % 256, (n >>> 48) % 256, (n >>> 40) % 256, (n >>> 32) % 256,
   (n >>> 24) % 256, (n >>> 16) % 256, (n >>> 8) % 256, n % 256]

/-- Standard SHA-256 padding: `0x80`, zeros to 56 mod 64, 64-bit length. -/
def padMessage (msg : List Nat) : List Nat :=
  let L := msg.length
  let padZeros := (64 - ((L + 9) % 64)) % 64
  msg ++ [0x80] ++ List.replicate padZeros 0 ++ lengthBytes (8 * L)

def wordBytes (w : Nat) : List Nat :=
  [(w >>> 24) % 256, (w >>> 16) % 256, (w >>> 8) % 256, w % 256]

/-- SHA-256 digest (32 bytes) of a byte stream. -/
def sha256Bytes (msg : List Nat) : List Nat :=
  let padded := padMessage msg
  let hs := processBlocks (padded.length / 64) H0 padded
  (hs.map wordBytes).foldr (· ++ ·) []

/-- UTF-8 encoding of one code point. -/
def utf8Encode (c : Nat) : List Nat :=
  if c < 0x80 then [c]
  else if c < 0x800 then
    [0xC0 ||| (c >>> 6), 0x80 ||| (c &&& 0x3F)]
  else if c < 0x10000 then
    [0xE0 ||| (c >>> 12), 0x80 ||| ((c >>> 6) &&& 0x3F), 0x80 ||| (c &&& 0x3F)]
  else
    [0xF0 ||| (c >>> 18), 0x80 ||| ((c >>> 12) &&& 0x3F),
     0x80 ||| ((c >>> 6) &&& 0x3F), 0x80 ||| (c &&& 0x3F)]

/-- UTF-8 bytes of a string (`secret.as_bytes()` in the source). -/
def strBytes (s : String) : List Nat :=
  s.data.foldr (fun c acc => utf8Encode c.toNat ++ acc) []

def hexDigit (n : Nat) : Char :=
  if n < 10 then Char.ofNat (48 + n) else Char.ofNat (87 + n)

/-- Lowercase hex of a byte stream (`hex::encode`). -/
def hexEncode (bytes : List Nat) : String :=
  ⟨bytes.foldr (fun b acc => hexDigit (b / 16) :: hexDigit (b % 16) :: acc) []⟩

end SHA256

/-- Source `generate_hashlock`: lowercase-hex SHA-256 of the secret's bytes. -/
def generate_hashlock (secret : String) : String :=
  SHA256.hexEncode (SHA256.sha256Bytes (SHA256.strBytes secret))

/-! ### Data model (`CrossChainOrder`, `OrderStatus`, `SlippageHistory`) -/

inductive OrderStatus where
  | Active
  | Locked
  | Completed
  | Expired
  | Cancelled
deriving DecidableEq, Repr

structure CrossChainOrder where
  order_id : Nat
  maker : String
  token_in : String
  token_out : String
  amount_in : Nat
  base_price : Nat
  current_slippage : Nat
  max_slippage_deviation : Nat
  target_chain_id : Nat
  hashlock : String
  timelock : Nat
  secret : Option String
  status : OrderStatus
  created_at : Nat
  last_slippage_update : Nat
  fill_attempts : Nat
deriving DecidableEq, Repr

structure SlippageHistory where
  timestamp : Nat
  slippage : Nat
  volatility_score : Nat
  cross_chain_delay : Nat
deriving DecidableEq, Repr

attribute [ext] CrossChainOrder

/-! ### Keyed store: the NEAR collections are modelled as association
lists, insertion overwriting any existing binding for the key. -/

def mapInsert [DecidableEq κ] (m : List (κ × α)) (k : κ) (v : α) :
    List (κ × α) :=
  (k, v) :: m.filter (fun p => ¬ p.1 = k)

def mapLookup [DecidableEq κ] (m : List (κ × α)) (k : κ) : Option α :=
  match m.find? (fun p => p.1 = k) with
  | some p => some p.2
  | none => none

instance {ε α : Type} [DecidableEq ε] [DecidableEq α] :
    DecidableEq (Except ε α) := fun a b =>
  match a, b with
  | .ok x, .ok y =>
    if h : x = y then .isTrue (by rw [h]) else .isFalse (by simp [h])
  | .error x, .error y =>
    if h : x = y then .isTrue (by rw [h]) else .isFalse (by simp [h])
  | .ok _, .error _ => .isFalse (by simp)
  | .error _, .ok _ => .isFalse (by simp)

/-- Host environment of one invocation (the `env::` intrinsics used). -/
structure Env where
  predecessor_account_id : String
  attached_deposit : Nat
  block_height : Nat
  block_timestamp : Nat
deriving DecidableEq, Repr

/-- Contract state (`AdaptiveCrossChain` struct). -/
structure ContractState where
  orders : List (Nat × CrossChainOrder)
  user_orders : List (String × List Nat)
  hashlock_to_order : List (String × Nat)
  slippage_history : List (Nat × List SlippageHistory)
  next_order_id : Nat
  owner : String
  ethereum_contract : String
  bridge_contract : String
  slippage_update_interval : Nat
  max_slippage_change : Nat
  fill_attempt_limit : Nat
  default_timelock_duration : Nat
deriving DecidableEq, Repr

/-- Source `new`: empty maps, `next_order_id = 1`, the protocol
parameters `300_000_000_000`, `100`, `10`, `17280`. -/
def ContractState.new (env : Env)
    (ethereum_contract bridge_contract : String) : ContractState :=
  { orders := []
    user_orders := []
    hashlock_to_order := []
    slippage_history := []
    next_order_id := 1
    owner := env.predecessor_account_id
    ethereum_contract
    bridge_contract
    slippage_update_interval := 300000000000
    max_slippage_change := 100
    fill_attempt_limit := 10
    default_timelock_duration := 17280 }

/-! ### Risk model (pure helpers of the source) -/

/-- Source `calculate_cross_chain_slippage`: 50 base + chain premium
(25 / 50 / 100) + 25 bridge-delay premium + 50 iff `amount > 10^24`. -/
def calculate_cross_chain_slippage (token_in token_out : String)
    (amount : Nat) (target_chain_id : Nat) : Nat :=
  let base_slippage := 50
  let cross_chain_premium :=
    if target_chain_id = 1 then 25
    else if target_chain_id = 137 then 50
    else 100
  let bridge_delay_premium := 25
  let amount_adjustment :=
    if amount > 1000000000000000000000000 then 50 else 0
  base_slippage + cross_chain_premium + bridge_delay_premium + amount_adjustment

/-- Source `calculate_volatility_score`: constant 100. -/
def calculate_volatility_score (token : String) : Nat := 100

/-- Source `estimate_bridge_delay`: 900 / 300 / 1800 seconds. -/
def estimate_bridge_delay (target_chain_id : Nat) : Nat :=
  if target_chain_id = 1 then 900
  else if target_chain_id = 137 then 300
  else 1800

/-! ### Entry points.  A `require!` failure (NEAR panic) aborts the call
with no state change; here it is an `Except.error` carrying the source's
panic message, and the caller's state is left untouched. -/

/-- Source `create_cross_chain_order`.  Returns the new order id and the
updated state. -/
def create_cross_chain_order (s : ContractState) (env : Env)
    (token_out : String) (base_price : Nat) (max_slippage_deviation : Nat)
    (target_chain_id : Nat) (secret : String) :
    Except String (Nat × ContractState) :=
  let deposit := env.attached_deposit
  if ¬ deposit > 0 then .error "Must attach NEAR tokens"
  else
    let maker := env.predecessor_account_id
    let order_id := s.next_order_id
    let hashlock := generate_hashlock secret
    let initial_slippage :=
      calculate_cross_chain_slippage "near" token_out deposit target_chain_id
    let timelock := env.block_height + s.default_timelock_duration
    let order : CrossChainOrder :=
      { order_id
        maker
        token_in := "near"
        token_out
        amount_in := deposit
        base_price
        current_slippage := initial_slippage
        max_slippage_deviation
        target_chain_id
        hashlock
        timelock
        secret := some secret
        status := .Active
        created_at := env.block_timestamp
        last_slippage_update := env.block_timestamp
        fill_attempts := 0 }
    let user_order_list := (mapLookup s.user_orders maker).getD [] ++ [order_id]
    let history : List SlippageHistory :=
      [{ timestamp := env.block_timestamp
         slippage := initial_slippage
         volatility_score := 0
         cross_chain_delay := 900 }]
    .ok (order_id,
      { s with
        next_order_id := s.next_order_id + 1
        orders := mapInsert s.orders order_id order
        hashlock_to_order := mapInsert s.hashlock_to_order hashlock order_id
        user_orders := mapInsert s.user_orders maker user_order_list
        slippage_history := mapInsert s.slippage_history order_id history })

/-- Source `claim_with_secret`.  Returns the transfer promise (receiver
account, amount) and the updated state. -/
def claim_with_secret (s : ContractState) (env : Env)
    (hashlock secret : String) :
    Except String ((String × Nat) × ContractState) :=
  let computed_hash := generate_hashlock secret
  if ¬ computed_hash = hashlock then .error "Invalid secret"
  else
    match mapLookup s.hashlock_to_order hashlock with
    | none => .error "Order not found"
    | some order_id =>
      match mapLookup s.orders order_id with
      | none => .error "Order not found"
      | some order =>
        if ¬ order.status = .Locked then .error "Order not in locked state"
        else if ¬ env.block_height < order.timelock then .error "Order expired"
        else
          let order' := { order with status := OrderStatus.Completed }
          .ok ((env.predecessor_account_id, order.amount_in),
            { s with orders := mapInsert s.orders order_id order' })

/-- The deviation clamp inlined in the source's `update_order_slippage`
(lines 237–255): move to the proposed value when the change is within
`max_slippage_deviation`, otherwise step by `max_slippage_deviation`
toward it, saturating at 0 on the way down. -/
def compute_final_slippage (current max_dev proposed : Nat) : Nat :=
  let slippage_change :=
    if proposed > current then proposed - current else current - proposed
  if slippage_change > max_dev then
    if proposed > current then current + max_dev
    else if current > max_dev then current - max_dev
    else 0
  else proposed

/-- Source `update_order_slippage`. -/
def update_order_slippage (s : ContractState) (env : Env) (order_id : Nat) :
    Except String ContractState :=
  match mapLookup s.orders order_id with
  | none => .error "Order not found"
  | some order =>
    if ¬ order.status = .Active then .error "Order not active"
    else if ¬ env.block_timestamp ≥
        order.last_slippage_update + s.slippage_update_interval then
      .error "Too early to update"
    else
      let new_slippage :=
        calculate_cross_chain_slippage order.token_in order.token_out
          order.amount_in order.target_chain_id
      let final_slippage :=
        compute_final_slippage order.current_slippage
          order.max_slippage_deviation new_slippage
      let order' :=
        { order with
          current_slippage := final_slippage
          last_slippage_update := env.block_timestamp }
      let s' := { s with orders := mapInsert s.orders order_id order' }
      match mapLookup s'.slippage_history order_id with
      | some history =>
        .ok { s' with
          slippage_history := mapInsert s'.slippage_history order_id
            (history ++
              [{ timestamp := env.block_timestamp
                 slippage := final_slippage
                 volatility_score := calculate_volatility_score order.token_out
                 cross_chain_delay := estimate_bridge_delay order.target_chain_id }]) }
      | none => .ok s'

/-! ### Query surface -/

/-- Source `get_order`. -/
def get_order (s : ContractState) (order_id : Nat) : Option CrossChainOrder :=
  mapLookup s.orders order_id

/-- Source `get_user_orders`. -/
def get_user_orders (s : ContractState) (user : String) : List Nat :=
  (mapLookup s.user_orders user).getD []

/-- Source `get_order_count`. -/
def get_order_count (s : ContractState) : Nat :=
  s.next_order_id - 1

/-! ### Derived shapes of the two mutating operations, used to state
and prove the theorems below.  These repeat no logic: they name the
sub-expressions of `update_order_slippage` and
`create_cross_chain_order`. -/

/-- The slippage value a successful update writes for `order`. -/
def updated_slippage (order : CrossChainOrder) : Nat :=
  compute_final_slippage order.current_slippage order.max_slippage_deviation
    (calculate_cross_chain_slippage order.token_in order.token_out
      order.amount_in order.target_chain_id)

/-- The order record a successful update stores. -/
def slippage_updated_order (order : CrossChainOrder) (now : Nat) :
    CrossChainOrder :=
  { order with
    current_slippage := updated_slippage order
    last_slippage_update := now }

/-- The history entry a successful update appends. -/
def slippage_history_entry (order : CrossChainOrder) (now : Nat) :
    SlippageHistory :=
  { timestamp := now
    slippage := updated_slippage order
    volatility_score := calculate_volatility_score order.token_out
    cross_chain_delay := estimate_bridge_delay order.target_chain_id }

/-- The order record `create_cross_chain_order` stores. -/
def created_order (s : ContractState) (env : Env) (token_out : String)
    (base_price max_slippage_deviation target_chain_id : Nat)
    (secret : String) : CrossChainOrder :=
  { order_id := s.next_order_id
    maker := env.predecessor_account_id
    token_in := "near"
    token_out
    amount_in := env.attached_deposit
    base_price
    current_slippage :=
      calculate_cross_chain_slippage "near" token_out env.attached_deposit
        target_chain_id
    max_slippage_deviation
    target_chain_id
    hashlock := generate_hashlock secret
    timelock := env.block_height + s.default_timelock_duration
    secret := some secret
    status := .Active
    created_at := env.block_timestamp
    last_slippage_update := env.block_timestamp
    fill_attempts := 0 }

/-- The state `create_cross_chain_order` returns. -/
def created_state (s : ContractState) (env : Env) (token_out : String)
    (base_price max_slippage_deviation target_chain_id : Nat)
    (secret : String) : ContractState :=
  let order := created_order s env token_out base_price
    max_slippage_deviation target_chain_id secret
  { s with
    next_order_id := s.next_order_id + 1
    orders := mapInsert s.orders s.next_order_id order
    hashlock_to_order := mapInsert s.hashlock_to_order
      (generate_hashlock secret) s.next_order_id
    user_orders := mapInsert s.user_orders env.predecessor_account_id
      ((mapLookup s.user_orders env.predecessor_account_id).getD [] ++
        [s.next_order_id])
    slippage_history := mapInsert s.slippage_history s.next_order_id
      [{ timestamp := env.block_timestamp
         slippage := order.current_slippage
         volatility_score := 0
         cross_chain_delay := 900 }] }

/-! ### Concrete scenarios, used by the closed witness theorems. -/

/-- Extract the posterior state of a fallible call, keeping the prior
state on error. -/
def okState (r : Except String ContractState) (prior : ContractState) :
    ContractState :=
  match r with
  | .ok s => s
  | .error _ => prior

/-- Extract the posterior state of a call returning a value and a state. -/
def okState2 {α : Type} (r : Except String (α × ContractState))
    (prior : ContractState) : ContractState :=
  match r with
  | .ok (_, s) => s
  | .error _ => prior

def hlAlpha : String := generate_hashlock "alpha"

/-- An invocation environment one whole interval after `orderU`'s last
update. -/
def envU : Env :=
  { predecessor_account_id := "updater"
    attached_deposit := 0
    block_height := 2000
    block_timestamp := 300000005000 }

/-- An active order with slippage 100 and deviation bound 30. -/
def orderU : CrossChainOrder :=
  { order_id := 1
    maker := "alice"
    token_in := "near"
    token_out := "0xdai"
    amount_in := 5
    base_price := 42
    current_slippage := 100
    max_slippage_deviation := 30
    target_chain_id := 1
    hashlock := "h1"
    timelock := 18280
    secret := some "alpha"
    status := .Active
    created_at := 5000
    last_slippage_update := 5000
    fill_attempts := 0 }

/-- A one-order state holding `orderU`. -/
def stateU : ContractState :=
  { orders := [(1, orderU)]
    user_orders := [("alice", [1])]
    hashlock_to_order := [("h1", 1)]
    slippage_history := [(1, [{ timestamp := 5000, slippage := 100,
                                volatility_score := 0,
                                cross_chain_delay := 900 }])]
    next_order_id := 2
    owner := "alice"
    ethereum_contract := "0xeth"
    bridge_contract := "bridge"
    slippage_update_interval := 300000000000
    max_slippage_change := 100
    fill_attempt_limit := 10
    default_timelock_duration := 17280 }

def stateU' : ContractState := okState (update_order_slippage stateU envU 1) stateU

/-- Claim environment before the timelock. -/
def envC : Env :=
  { predecessor_account_id := "claimer"
    attached_deposit := 0
    block_height := 10000
    block_timestamp := 7000 }

/-- Claim environment exactly at the timelock height. -/
def envC2 : Env :=
  { predecessor_account_id := "claimer"
    attached_deposit := 0
    block_height := 18280
    block_timestamp := 7000 }

/-- A locked order guarded by `hlAlpha`. -/
def orderL : CrossChainOrder :=
  { orderU with hashlock := hlAlpha, status := .Locked }

/-- A one-order state holding `orderL`. -/
def stateL : ContractState :=
  { stateU with
    orders := [(1, orderL)]
    hashlock_to_order := [(hlAlpha, 1)] }

def stateL' : ContractState :=
  okState2 (claim_with_secret stateL envC hlAlpha "alpha") stateL

/-- A locked order at the fill-attempt limit. -/
def orderL6 : CrossChainOrder :=
  { orderL with fill_attempts := 10 }

/-- A one-order state holding `orderL6`. -/
def stateL6 : ContractState :=
  { stateL with orders := [(1, orderL6)] }

def stateL6' : ContractState :=
  okState2 (claim_with_secret stateL6 envC hlAlpha "alpha") stateL6

/-- Creation environment: "alice" attaches `2·10²⁴`. -/
def envA : Env :=
  { predecessor_account_id := "alice"
    attached_deposit := 2000000000000000000000000
    block_height := 1000
    block_timestamp := 5000 }

/-- Creation environment: "alice" attaches `5·10²³`. -/
def envB : Env :=
  { predecessor_account_id := "alice"
    attached_deposit := 500000000000000000000000
    block_height := 1000
    block_timestamp := 5000 }

/-- Creation environment attaching 1 yoctoNEAR. -/
def envOne : Env :=
  { predecessor_account_id := "alice"
    attached_deposit := 1
    block_height := 1000
    block_timestamp := 5000 }

/-- Creation environment attaching nothing. -/
def envZero : Env :=
  { predecessor_account_id := "alice"
    attached_deposit := 0
    block_height := 1000
    block_timestamp := 5000 }

/-- The freshly initialized contract. -/
def state0 : ContractState := ContractState.new envA "0xeth" "bridge"

def state3 : ContractState :=
  okState2 (create_cross_chain_order state0 envA "0xdai" 42 50 137 "alpha") state0

def state4a : ContractState :=
  okState2 (create_cross_chain_order state0 envOne "0xdai" 42 50 1 "alpha") state0

def state4b : ContractState :=
  okState2 (create_cross_chain_order state4a envOne "0xusdc" 7 60 137 "alpha") state4a

def state5 : ContractState :=
  okState2 (create_cross_chain_order state0 envOne "0xdai" 42 10001 1 "alpha") state0

def state9 : ContractState :=
  okState2 (create_cross_chain_order state0 envB "0xdai" 42 50 1 "alpha") state0

/-! ### Lemmas about the keyed store -/

theorem find?_filter_of_imp {κ α : Type} (m : List (κ × α))
    (pred q : κ × α → Bool) (himp : ∀ p, pred p = true → q p = true) :
    (m.filter q).find? pred = m.find? pred := by
  induction m with
  | nil => rfl
  | cons a t ih =>
    by_cases hq : q a = true
    · by_cases hp : pred a = true
      · simp [List.filter_cons, hq, List.find?, hp]
      · simp only [List.filter_cons, hq, if_true, List.find?, hp]
        simpa [List.find?, Bool.eq_false_iff.mpr hp] using ih
    · have hp : pred a = false := by
        rcases Bool.eq_false_or_eq_true (pred a) with h | h
        · exact absurd (himp a h) hq
        · exact h
      have hfilter : List.filter q (a :: t) = List.filter q t := by
        simp [List.filter_cons, hq]
      simp [hfilter, List.find?_cons, hp, ih]

theorem mapLookup_insert_self {κ α : Type} [DecidableEq κ]
    (m : List (κ × α)) (k : κ) (v : α) :
    mapLookup (mapInsert m k v) k = some v := by
  simp [mapLookup, mapInsert, List.find?]

theorem mapLookup_insert_ne {κ α : Type} [DecidableEq κ]
    (m : List (κ × α)) (k k' : κ) (v : α) (h : ¬ k' = k) :
    mapLookup (mapInsert m k v) k' = mapLookup m k' := by
  unfold mapLookup mapInsert
  rw [List.find?]
  have hhead : decide ((k, v).1 = k') = false := by
    simp only [decide_eq_false_iff_not]
    exact fun hh => h hh.symm
  rw [hhead]
  rw [find?_filter_of_imp]
  intro p hp
  simp only [decide_eq_true_eq] at hp
  simp only [decide_eq_true_eq]
  intro hk
  exact h (hp.symm.trans hk)

/-! ### Shape and inversion lemmas for the three mutating entry points -/

theorem create_cross_chain_order_zero (s : ContractState) (env : Env)
    (token_out : String) (bp dev chain : Nat) (secret : String)
    (hdep : env.attached_deposit = 0) :
    create_cross_chain_order s env token_out bp dev chain secret =
      .error "Must attach NEAR tokens" := by
  simp [create_cross_chain_order, hdep]

theorem create_cross_chain_order_ok (s : ContractState) (env : Env)
    (token_out : String) (bp dev chain : Nat) (secret : String)
    (hdep : 0 < env.attached_deposit) :
    create_cross_chain_order s env token_out bp dev chain secret =
      .ok (s.next_order_id,
           created_state s env token_out bp dev chain secret) := by
  simp only [create_cross_chain_order]
  rw [if_neg (by omega)]
  rfl

theorem create_cross_chain_order_ok_inv (s : ContractState) (env : Env)
    (token_out : String) (bp dev chain : Nat) (secret : String)
    (oid : Nat) (s' : ContractState)
    (hok : create_cross_chain_order s env token_out bp dev chain secret =
      .ok (oid, s')) :
    0 < env.attached_deposit ∧ oid = s.next_order_id ∧
      s' = created_state s env token_out bp dev chain secret := by
  by_cases hdep : 0 < env.attached_deposit
  · rw [create_cross_chain_order_ok s env token_out bp dev chain secret hdep]
      at hok
    simp only [Except.ok.injEq, Prod.mk.injEq] at hok
    exact ⟨hdep, hok.1.symm, hok.2.symm⟩
  · rw [create_cross_chain_order_zero s env token_out bp dev chain secret
      (by omega)] at hok
    simp at hok

theorem update_order_slippage_eq_hist (s : ContractState) (env : Env)
    (oid : Nat) (order : CrossChainOrder) (hist : List SlippageHistory)
    (hord : mapLookup s.orders oid = some order)
    (hh : mapLookup s.slippage_history oid = some hist)
    (hA : order.status = .Active)
    (hT : order.last_slippage_update + s.slippage_update_interval ≤
      env.block_timestamp) :
    update_order_slippage s env oid = .ok
      { s with
        orders := mapInsert s.orders oid
          (slippage_updated_order order env.block_timestamp)
        slippage_history := mapInsert s.slippage_history oid
          (hist ++ [slippage_history_entry order env.block_timestamp]) } := by
  simp only [update_order_slippage, hord]
  rw [if_neg (by simp [hA]), if_neg (by omega)]
  simp only [hh]
  simp [slippage_updated_order, updated_slippage, slippage_history_entry]

theorem update_order_slippage_eq_nohist (s : ContractState) (env : Env)
    (oid : Nat) (order : CrossChainOrder)
    (hord : mapLookup s.orders oid = some order)
    (hh : mapLookup s.slippage_history oid = none)
    (hA : order.status = .Active)
    (hT : order.last_slippage_update + s.slippage_update_interval ≤
      env.block_timestamp) :
    update_order_slippage s env oid = .ok
      { s with
        orders := mapInsert s.orders oid
          (slippage_updated_order order env.block_timestamp) } := by
  simp only [update_order_slippage, hord]
  rw [if_neg (by simp [hA]), if_neg (by omega)]
  simp only [hh]
  simp [slippage_updated_order, updated_slippage]

theorem update_order_slippage_tooSoon (s : ContractState) (env : Env)
    (oid : Nat) (order : CrossChainOrder)
    (hord : mapLookup s.orders oid = some order)
    (hA : order.status = .Active)
    (hT : env.block_timestamp <
      order.last_slippage_update + s.slippage_update_interval) :
    update_order_slippage s env oid = .error "Too early to update" := by
  simp only [update_order_slippage, hord]
  rw [if_neg (by simp [hA]), if_pos (by omega)]

theorem update_order_slippage_ok_inv (s : ContractState) (env : Env)
    (oid : Nat) (order : CrossChainOrder) (s' : ContractState)
    (hord : mapLookup s.orders oid = some order)
    (hok : update_order_slippage s env oid = .ok s') :
    order.status = .Active ∧
      order.last_slippage_update + s.slippage_update_interval ≤
        env.block_timestamp := by
  by_cases hA : order.status = .Active
  · by_cases hT : order.last_slippage_update + s.slippage_update_interval ≤
      env.block_timestamp
    · exact ⟨hA, hT⟩
    · rw [update_order_slippage_tooSoon s env oid order hord hA (by omega)]
        at hok
      simp at hok
  · simp only [update_order_slippage, hord] at hok
    rw [if_pos (by simp [hA])] at hok
    simp at hok

theorem claim_with_secret_ok_eq (s : ContractState) (env : Env)
    (hashlock secret : String) (oid : Nat) (order : CrossChainOrder)
    (hsec : generate_hashlock secret = hashlock)
    (hidx : mapLookup s.hashlock_to_order hashlock = some oid)
    (hord : mapLookup s.orders oid = some order)
    (hL : order.status = .Locked)
    (hH : env.block_height < order.timelock) :
    claim_with_secret s env hashlock secret =
      .ok ((env.predecessor_account_id, order.amount_in),
        { s with
            orders := mapInsert s.orders oid
              ({ order with status := OrderStatus.Completed }) }) := by
  simp only [claim_with_secret, hsec, hidx, hord]
  rw [if_neg (by simp), if_neg (by simp [hL]), if_neg (by omega)]

theorem claim_with_secret_ok_inv (s : ContractState) (env : Env)
    (hashlock secret : String) (r : String × Nat) (s' : ContractState)
    (hok : claim_with_secret s env hashlock secret = .ok (r, s')) :
    generate_hashlock secret = hashlock ∧
    ∃ oid order,
      mapLookup s.hashlock_to_order hashlock = some oid ∧
      mapLookup s.orders oid = some order ∧
      order.status = .Locked ∧
      env.block_height < order.timelock ∧
      r = (env.predecessor_account_id, order.amount_in) ∧
      s' = { s with
        orders := mapInsert s.orders oid
          ({ order with status := OrderStatus.Completed }) } := by
  unfold claim_with_secret at hok
  by_cases hsec : generate_hashlock secret = hashlock
  · rw [if_neg (by simp [hsec])] at hok
    cases hidx : mapLookup s.hashlock_to_order hashlock with
    | none => rw [hidx] at hok; simp at hok
    | some oid =>
      rw [hidx] at hok
      dsimp only at hok
      cases hord : mapLookup s.orders oid with
      | none => rw [hord] at hok; simp at hok
      | some order =>
        rw [hord] at hok
        dsimp only at hok
        by_cases hL : order.status = .Locked
        · by_cases hH : env.block_height < order.timelock
          · rw [if_neg (by simp [hL]), if_neg (by omega)] at hok
            simp only [Except.ok.injEq, Prod.mk.injEq] at hok
            exact ⟨hsec, oid, order, rfl, hord, hL, hH,
              hok.1.symm, hok.2.symm⟩
          · rw [if_neg (by simp [hL]), if_pos (by omega)] at hok
            simp at hok
        · rw [if_pos (by simp [hL])] at hok
          simp at hok
  · rw [if_pos (by simp [hsec])] at hok
    simp at hok

theorem claim_with_secret_expired (s : ContractState) (env : Env)
    (hashlock secret : String) (oid : Nat) (order : CrossChainOrder)
    (hsec : generate_hashlock secret = hashlock)
    (hidx : mapLookup s.hashlock_to_order hashlock = some oid)
    (hord : mapLookup s.orders oid = some order)
    (hL : order.status = .Locked)
    (hH : order.timelock ≤ env.block_height) :
    claim_with_secret s env hashlock secret = .error "Order expired" := by
  simp only [claim_with_secret, hsec, hidx, hord]
  rw [if_neg (by simp), if_neg (by simp [hL]), if_pos (by omega)]

/-! ### The deviation clamp -/

theorem compute_final_slippage_bounds (c d p : Nat) :
    compute_final_slippage c d p ≤ c + d ∧
      c ≤ compute_final_slippage c d p + d := by
  unfold compute_final_slippage
  dsimp only
  split_ifs <;> omega

theorem compute_final_slippage_saturate (c d p : Nat)
    (h1 : p < c) (h2 : d < c - p) :
    compute_final_slippage c d p = c - min c d := by
  unfold compute_final_slippage
  dsimp only
  split_ifs <;> omega

/-- A successful `update_order_slippage` replaces exactly the target
order's entry in the order map and leaves the protocol parameters
unchanged. -/
theorem update_order_slippage_ok_shape (s : ContractState) (env : Env)
    (order_id : Nat) (order : CrossChainOrder) (s' : ContractState)
    (hord : mapLookup s.orders order_id = some order)
    (hok : update_order_slippage s env order_id = .ok s') :
    s'.orders = mapInsert s.orders order_id
      (slippage_updated_order order env.block_timestamp) ∧
    s'.slippage_update_interval = s.slippage_update_interval := by
  obtain ⟨hA, hT⟩ := update_order_slippage_ok_inv s env order_id order s' hord hok
  cases hh : mapLookup s.slippage_history order_id with
  | some hist =>
    rw [update_order_slippage_eq_hist s env order_id order hist hord hh hA hT]
      at hok
    injection hok with hok
    subst hok
    exact ⟨rfl, rfl⟩
  | none =>
    rw [update_order_slippage_eq_nohist s env order_id order hord hh hA hT]
      at hok
    injection hok with hok
    subst hok
    exact ⟨rfl, rfl⟩

/-- A successful `update_order_slippage` stores exactly
`slippage_updated_order order now` under the order's id. -/
theorem update_order_slippage_ok_lookup (s : ContractState) (env : Env)
    (order_id : Nat) (order : CrossChainOrder) (s' : ContractState)
    (hord : mapLookup s.orders order_id = some order)
    (hok : update_order_slippage s env order_id = .ok s') :
    mapLookup s'.orders order_id =
      some (slippage_updated_order order env.block_timestamp) := by
  rw [(update_order_slippage_ok_shape s env order_id order s' hord hok).1]
  exact mapLookup_insert_self s.orders order_id _

/-- C1: for every successful call to `update_order_slippage`, the
absolute difference between the new and the old `current_slippage` is
at most the order's `max_slippage_deviation` (stated as the two
`Nat` inequalities equivalent to `|new − old| ≤ max_dev`); when the
proposed value is below the current value by more than the deviation
bound, the result is `current − min(current, max_slippage_deviation)`,
which saturates at 0 instead of underflowing, and concretely the clamp
at `current = 20`, `max_slippage_deviation = 50`, `proposed = 0`
yields 0. -/
theorem C1_update_slippage_bounded (s : ContractState) (env : Env)
    (order_id : Nat) (order : CrossChainOrder) (s' : ContractState)
    (hord : mapLookup s.orders order_id = some order)
    (hok : update_order_slippage s env order_id = .ok s') :
    (∃ order', mapLookup s'.orders order_id = some order' ∧
      order'.current_slippage ≤
        order.current_slippage + order.max_slippage_deviation ∧
      order.current_slippage ≤
        order'.current_slippage + order.max_slippage_deviation ∧
      (calculate_cross_chain_slippage order.token_in order.token_out
          order.amount_in order.target_chain_id < order.current_slippage →
        order.max_slippage_deviation <
          order.current_slippage -
            calculate_cross_chain_slippage order.token_in order.token_out
              order.amount_in order.target_chain_id →
        order'.current_slippage =
          order.current_slippage -
            min order.current_slippage order.max_slippage_deviation)) ∧
    compute_final_slippage 20 50 0 = 0 := by
  refine ⟨⟨slippage_updated_order order env.block_timestamp,
    update_order_slippage_ok_lookup s env order_id order s' hord hok,
    ?_, ?_, ?_⟩, by decide⟩
  · exact (compute_final_slippage_bounds order.current_slippage
      order.max_slippage_deviation _).1
  · exact (compute_final_slippage_bounds order.current_slippage
      order.max_slippage_deviation _).2
  · intro h1 h2
    exact compute_final_slippage_saturate order.current_slippage
      order.max_slippage_deviation _ h1 (by omega)

/-- Witness for C1: in `stateU`, order 1 is active with slippage 100
and deviation bound 30; one interval later the update succeeds and the
theorem applies. -/
theorem C1_witness :
    mapLookup stateU.orders 1 = some orderU ∧
    update_order_slippage stateU envU 1 = .ok stateU' ∧
    (∃ order', mapLookup stateU'.orders 1 = some order' ∧
      order'.current_slippage ≤
        orderU.current_slippage + orderU.max_slippage_deviation ∧
      orderU.current_slippage ≤
        order'.current_slippage + orderU.max_slippage_deviation ∧
      (calculate_cross_chain_slippage orderU.token_in orderU.token_out
          orderU.amount_in orderU.target_chain_id < orderU.current_slippage →
        orderU.max_slippage_deviation <
          orderU.current_slippage -
            calculate_cross_chain_slippage orderU.token_in orderU.token_out
              orderU.amount_in orderU.target_chain_id →
        order'.current_slippage =
          orderU.current_slippage -
            min orderU.current_slippage orderU.max_slippage_deviation)) ∧
    compute_final_slippage 20 50 0 = 0 :=
  ⟨by decide, by decide,
    C1_update_slippage_bounded stateU envU 1 orderU stateU'
      (by decide) (by decide)⟩

/-- C10: a successful `update_order_slippage` on an order modifies only
that order's `current_slippage` and `last_slippage_update`: every other
field of the order is unchanged, and every other order in the store is
unchanged. -/
theorem C10_update_frame (s : ContractState) (env : Env)
    (order_id : Nat) (order : CrossChainOrder) (s' : ContractState)
    (hord : mapLookup s.orders order_id = some order)
    (hok : update_order_slippage s env order_id = .ok s') :
    (∃ order', mapLookup s'.orders order_id = some order' ∧
      order'.order_id = order.order_id ∧
      order'.maker = order.maker ∧
      order'.token_in = order.token_in ∧
      order'.token_out = order.token_out ∧
      order'.amount_in = order.amount_in ∧
      order'.base_price = order.base_price ∧
      order'.max_slippage_deviation = order.max_slippage_deviation ∧
      order'.target_chain_id = order.target_chain_id ∧
      order'.hashlock = order.hashlock ∧
      order'.timelock = order.timelock ∧
      order'.secret = order.secret ∧
      order'.status = order.status ∧
      order'.created_at = order.created_at ∧
      order'.fill_attempts = order.fill_attempts) ∧
    (∀ oid', ¬ oid' = order_id →
      mapLookup s'.orders oid' = mapLookup s.orders oid') := by
  have hshape := update_order_slippage_ok_shape s env order_id order s' hord hok
  constructor
  · refine ⟨slippage_updated_order order env.block_timestamp,
      update_order_slippage_ok_lookup s env order_id order s' hord hok, ?_⟩
    simp [slippage_updated_order]
  · intro oid' hne
    rw [hshape.1]
    exact mapLookup_insert_ne s.orders order_id oid' _ hne

/-- Witness for C10: the concrete update in `stateU` leaves every field
of order 1 except the two slippage fields unchanged, and any other id
reads the same as before. -/
theorem C10_witness :
    mapLookup stateU.orders 1 = some orderU ∧
    update_order_slippage stateU envU 1 = .ok stateU' ∧
    (∀ oid', ¬ oid' = 1 →
      mapLookup stateU'.orders oid' = mapLookup stateU.orders oid') :=
  ⟨by decide, by decide,
    (C10_update_frame stateU envU 1 orderU stateU'
      (by decide) (by decide)).2⟩

/-- C7: with the order present and `Active`, `update_order_slippage`
fails with `TooSoon` ("Too early to update") exactly when
`now < last_slippage_update + slippage_update_interval`; at equality it
succeeds; and after a success, a second call anywhere inside the new
rate-limit window fails with `TooSoon`, so the state remains that of a
single application. -/
theorem C7_update_rate_limit (s : ContractState) (env : Env)
    (order_id : Nat) (order : CrossChainOrder)
    (hord : mapLookup s.orders order_id = some order)
    (hA : order.status = .Active) :
    (env.block_timestamp <
        order.last_slippage_update + s.slippage_update_interval ↔
      update_order_slippage s env order_id = .error "Too early to update") ∧
    (order.last_slippage_update + s.slippage_update_interval ≤
        env.block_timestamp →
      ∃ s', update_order_slippage s env order_id = .ok s') ∧
    (∀ s' env', update_order_slippage s env order_id = .ok s' →
      env'.block_timestamp <
        env.block_timestamp + s.slippage_update_interval →
      update_order_slippage s' env' order_id =
        .error "Too early to update") := by
  have hsucc : order.last_slippage_update + s.slippage_update_interval ≤
      env.block_timestamp →
      ∃ s', update_order_slippage s env order_id = .ok s' := by
    intro hT
    cases hh : mapLookup s.slippage_history order_id with
    | some hist =>
      exact ⟨_, update_order_slippage_eq_hist s env order_id order hist
        hord hh hA hT⟩
    | none =>
      exact ⟨_, update_order_slippage_eq_nohist s env order_id order
        hord hh hA hT⟩
  refine ⟨⟨fun hlt => update_order_slippage_tooSoon s env order_id order
      hord hA hlt, fun herr => ?_⟩, hsucc, fun s' env' hok hwin => ?_⟩
  · by_contra hge
    obtain ⟨s', hs'⟩ := hsucc (by omega)
    rw [hs'] at herr
    simp at herr
  · have hshape := update_order_slippage_ok_shape s env order_id order s'
      hord hok
    have hlook := update_order_slippage_ok_lookup s env order_id order s'
      hord hok
    refine update_order_slippage_tooSoon s' env' order_id
      (slippage_updated_order order env.block_timestamp) hlook ?_ ?_
    · simpa [slippage_updated_order] using hA
    · rw [hshape.2]
      simpa [slippage_updated_order] using hwin

/-- Witness for C7: in `stateU` the update interval elapses exactly at
`envU`'s timestamp, so the update succeeds there, and a repeat call at
the same timestamp fails with "Too early to update". -/
theorem C7_witness :
    mapLookup stateU.orders 1 = some orderU ∧
    orderU.status = OrderStatus.Active ∧
    ((envU.block_timestamp <
        orderU.last_slippage_update + stateU.slippage_update_interval ↔
      update_order_slippage stateU envU 1 =
        .error "Too early to update") ∧
    (orderU.last_slippage_update + stateU.slippage_update_interval ≤
        envU.block_timestamp →
      ∃ s', update_order_slippage stateU envU 1 = .ok s') ∧
    (∀ s' env', update_order_slippage stateU envU 1 = .ok s' →
      env'.block_timestamp <
        envU.block_timestamp + stateU.slippage_update_interval →
      update_order_slippage s' env' 1 = .error "Too early to update")) :=
  ⟨by decide, by decide,
    C7_update_rate_limit stateU envU 1 orderU (by decide) (by decide)⟩

/-- C8: `last_slippage_update` never decreases under any of the three
mutating operations: creation initializes it to `now` and (when the
allocated id is fresh, as `next_order_id` always is in reachable
states) leaves every stored order untouched; a successful update moves
it forward past the old value on the target order and leaves every
other order untouched; a claim leaves it alone on every stored order.
Each successful `update_order_slippage` appends exactly one entry to
the order's slippage history, and creation writes the first history
entry `{now, current_slippage, 0, 900}`. -/
theorem C8_history_and_monotonic (s : ContractState) (env : Env) :
    (∀ token_out bp dev chain secret oid s',
      create_cross_chain_order s env token_out bp dev chain secret =
        .ok (oid, s') →
      (∃ o, get_order s' oid = some o ∧
        o.last_slippage_update = env.block_timestamp ∧
        mapLookup s'.slippage_history oid =
          some [{ timestamp := env.block_timestamp
                  slippage := o.current_slippage
                  volatility_score := 0
                  cross_chain_delay := 900 }]) ∧
      (mapLookup s.orders s.next_order_id = none →
        ∀ oid2 order2, mapLookup s.orders oid2 = some order2 →
          get_order s' oid2 = some order2)) ∧
    (∀ oid order hist s',
      mapLookup s.orders oid = some order →
      mapLookup s.slippage_history oid = some hist →
      update_order_slippage s env oid = .ok s' →
      (∃ order' e, get_order s' oid = some order' ∧
        order.last_slippage_update ≤ order'.last_slippage_update ∧
        mapLookup s'.slippage_history oid = some (hist ++ [e])) ∧
      (∀ oid2, ¬ oid2 = oid →
        get_order s' oid2 = get_order s oid2)) ∧
    (∀ hashlock secret r s' oid order,
      claim_with_secret s env hashlock secret = .ok (r, s') →
      mapLookup s.orders oid = some order →
      ∃ order', get_order s' oid = some order' ∧
        order'.last_slippage_update = order.last_slippage_update) := by
  refine ⟨?_, ?_, ?_⟩
  · intro token_out bp dev chain secret oid s' hok
    obtain ⟨hdep, hoid, hs'⟩ := create_cross_chain_order_ok_inv s env
      token_out bp dev chain secret oid s' hok
    subst hoid
    subst hs'
    constructor
    · refine ⟨created_order s env token_out bp dev chain secret, ?_, rfl, ?_⟩
      · simp [get_order, created_state, mapLookup_insert_self]
      · simp [created_state, mapLookup_insert_self]
    · intro hfresh oid2 order2 hord2
      have hne : ¬ oid2 = s.next_order_id := by
        intro h
        rw [h, hfresh] at hord2
        exact Option.noConfusion hord2
      simp only [get_order, created_state]
      rw [mapLookup_insert_ne s.orders s.next_order_id oid2 _ hne]
      exact hord2
  · intro oid order hist s' hord hh hok
    obtain ⟨hA, hT⟩ := update_order_slippage_ok_inv s env oid order s'
      hord hok
    have hshape := update_order_slippage_ok_shape s env oid order s' hord hok
    rw [update_order_slippage_eq_hist s env oid order hist hord hh hA hT]
      at hok
    injection hok with hok
    subst hok
    constructor
    · refine ⟨slippage_updated_order order env.block_timestamp,
        slippage_history_entry order env.block_timestamp, ?_, ?_, ?_⟩
      · simp [get_order, mapLookup_insert_self]
      · simp only [slippage_updated_order]
        omega
      · simp [mapLookup_insert_self]
    · intro oid2 hne
      simp only [get_order]
      rw [mapLookup_insert_ne s.orders oid oid2 _ hne]
  · intro hashlock secret r s' oid order hok hord
    obtain ⟨hsec, oid0, order0, hidx, hord0, hL, hH, hr, hs'⟩ :=
      claim_with_secret_ok_inv s env hashlock secret r s' hok
    subst hs'
    by_cases heq : oid = oid0
    · subst heq
      rw [hord] at hord0
      injection hord0 with hord0
      subst hord0
      refine ⟨{ order with status := OrderStatus.Completed }, ?_, rfl⟩
      simp [get_order, mapLookup_insert_self]
    · refine ⟨order, ?_, rfl⟩
      simp only [get_order]
      rw [mapLookup_insert_ne s.orders oid0 oid _ heq]
      exact hord

/-- Witness for C8: the concrete creation in `state0` writes the
single initial history entry, and the concrete update in `stateU`
appends exactly one entry while moving `last_slippage_update` from
5000 to `envU`'s timestamp. -/
theorem C8_witness :
    create_cross_chain_order state0 envB "0xdai" 42 50 1 "alpha" =
      .ok (1, state9) ∧
    mapLookup stateU.orders 1 = some orderU ∧
    mapLookup stateU.slippage_history 1 =
      some [{ timestamp := 5000, slippage := 100,
              volatility_score := 0, cross_chain_delay := 900 }] ∧
    update_order_slippage stateU envU 1 = .ok stateU' ∧
    (∃ o, get_order state9 1 = some o ∧
      o.last_slippage_update = envB.block_timestamp ∧
      mapLookup state9.slippage_history 1 =
        some [{ timestamp := envB.block_timestamp
                slippage := o.current_slippage
                volatility_score := 0
                cross_chain_delay := 900 }]) ∧
    (∃ order' e, get_order stateU' 1 = some order' ∧
      orderU.last_slippage_update ≤ order'.last_slippage_update ∧
      mapLookup stateU'.slippage_history 1 =
        some ([{ timestamp := 5000, slippage := 100,
                 volatility_score := 0, cross_chain_delay := 900 }] ++ [e])) :=
  ⟨by decide, by decide, by decide, by decide,
    ((C8_history_and_monotonic state0 envB).1 "0xdai" 42 50 1 "alpha" 1 state9
      (by decide)).1,
    ((C8_history_and_monotonic stateU envU).2.1 1 orderU
      [{ timestamp := 5000, slippage := 100,
         volatility_score := 0, cross_chain_delay := 900 }] stateU'
      (by decide) (by decide) (by decide)).1⟩

/-- C2: `claim_with_secret` succeeds only when the recomputed digest
matches the hashlock, the hashlock index resolves to an existing order,
that order is `Locked`, and the block height is strictly below the
timelock; at `block_height = timelock` it fails with "Order expired";
on success it marks the order `Completed` and transfers `amount_in` to
the caller. -/
theorem C2_claim_conditions (s : ContractState) (env : Env)
    (hashlock secret : String) :
    (∀ r s', claim_with_secret s env hashlock secret = .ok (r, s') →
      generate_hashlock secret = hashlock ∧
      ∃ oid order,
        mapLookup s.hashlock_to_order hashlock = some oid ∧
        mapLookup s.orders oid = some order ∧
        order.status = OrderStatus.Locked ∧
        env.block_height < order.timelock ∧
        r = (env.predecessor_account_id, order.amount_in) ∧
        get_order s' oid =
          some ({ order with status := OrderStatus.Completed })) ∧
    (∀ oid order,
      generate_hashlock secret = hashlock →
      mapLookup s.hashlock_to_order hashlock = some oid →
      mapLookup s.orders oid = some order →
      order.status = OrderStatus.Locked →
      env.block_height = order.timelock →
      claim_with_secret s env hashlock secret = .error "Order expired") := by
  constructor
  · intro r s' hok
    obtain ⟨hsec, oid, order, hidx, hord, hL, hH, hr, hs'⟩ :=
      claim_with_secret_ok_inv s env hashlock secret r s' hok
    subst hs'
    exact ⟨hsec, oid, order, hidx, hord, hL, hH, hr,
      by simp [get_order, mapLookup_insert_self]⟩
  · intro oid order hsec hidx hord hL hH
    exact claim_with_secret_expired s env hashlock secret oid order
      hsec hidx hord hL (by omega)

/-- Witness for C2: the claim on `stateL` succeeds before the timelock
(transferring `amount_in = 5` to "claimer") and fails with
"Order expired" at exactly `block_height = timelock`. -/
theorem C2_witness :
    claim_with_secret stateL envC hlAlpha "alpha" =
      .ok (("claimer", 5), stateL') ∧
    (generate_hashlock "alpha" = hlAlpha ∧
      ∃ oid order,
        mapLookup stateL.hashlock_to_order hlAlpha = some oid ∧
        mapLookup stateL.orders oid = some order ∧
        order.status = OrderStatus.Locked ∧
        envC.block_height < order.timelock ∧
        ("claimer", (5:Nat)) =
          (envC.predecessor_account_id, order.amount_in) ∧
        get_order stateL' oid =
          some ({ order with status := OrderStatus.Completed })) ∧
    claim_with_secret stateL envC2 hlAlpha "alpha" =
      .error "Order expired" :=
  ⟨by decide,
    (C2_claim_conditions stateL envC hlAlpha "alpha").1 ("claimer", 5)
      stateL' (by decide),
    (C2_claim_conditions stateL envC2 hlAlpha "alpha").2 1 orderL rfl
      (by decide) (by decide) (by decide) (by decide)⟩

/-- C6 counterexample: in `stateL6` order 1 has
`fill_attempts = 10 = fill_attempt_limit`, yet `claim_with_secret`
succeeds rather than failing with `AttemptLimit`, and the stored result
still carries `fill_attempts = 10`: no claim attempt ever increments
the counter. -/
theorem C6_counterexample :
    stateL6.fill_attempt_limit = 10 ∧
    mapLookup stateL6.orders 1 = some orderL6 ∧
    orderL6.fill_attempts = 10 ∧
    claim_with_secret stateL6 envC hlAlpha "alpha" =
      .ok (("claimer", 5), stateL6') ∧
    get_order stateL6' 1 =
      some ({ orderL6 with status := OrderStatus.Completed }) ∧
    ({ orderL6 with status := OrderStatus.Completed }).fill_attempts = 10 :=
  by decide

/-- C6 amended: `claim_with_secret` neither increments `fill_attempts`
nor consults `fill_attempt_limit`: even at or past the limit, a claim
on a locked, unexpired order with the right secret succeeds, and the
stored order keeps its `fill_attempts` value unchanged. -/
theorem C6_claim_ignores_attempt_limit (s : ContractState) (env : Env)
    (hashlock secret : String) (oid : Nat) (order : CrossChainOrder)
    (hsec : generate_hashlock secret = hashlock)
    (hidx : mapLookup s.hashlock_to_order hashlock = some oid)
    (hord : mapLookup s.orders oid = some order)
    (hL : order.status = OrderStatus.Locked)
    (hH : env.block_height < order.timelock)
    (hlim : s.fill_attempt_limit ≤ order.fill_attempts) :
    ∃ s', claim_with_secret s env hashlock secret =
        .ok ((env.predecessor_account_id, order.amount_in), s') ∧
      ∃ o, get_order s' oid = some o ∧
        o.fill_attempts = order.fill_attempts ∧
        o.status = OrderStatus.Completed := by
  refine ⟨_, claim_with_secret_ok_eq s env hashlock secret oid order
    hsec hidx hord hL hH, ?_⟩
  refine ⟨{ order with status := OrderStatus.Completed }, ?_, rfl, rfl⟩
  simp [get_order, mapLookup_insert_self]

/-- Witness for C6's amended theorem, at the concrete limit-reached
state `stateL6`. -/
theorem C6_witness :
    stateL6.fill_attempt_limit ≤ orderL6.fill_attempts ∧
    (∃ s', claim_with_secret stateL6 envC hlAlpha "alpha" =
        .ok ((envC.predecessor_account_id, orderL6.amount_in), s') ∧
      ∃ o, get_order s' 1 = some o ∧
        o.fill_attempts = orderL6.fill_attempts ∧
        o.status = OrderStatus.Completed) :=
  ⟨by decide,
    C6_claim_ignores_attempt_limit stateL6 envC hlAlpha "alpha" 1 orderL6
      rfl (by decide) (by decide) (by decide) (by decide) (by decide)⟩

/-- C9: every order created by `create_cross_chain_order` is persisted
with its plaintext secret, and the public view `get_order` returns it. -/
theorem C9_secret_stored (s : ContractState) (env : Env)
    (token_out : String) (bp dev chain : Nat) (secret : String)
    (oid : Nat) (s' : ContractState)
    (hok : create_cross_chain_order s env token_out bp dev chain secret =
      .ok (oid, s')) :
    ∃ o, get_order s' oid = some o ∧ o.secret = some secret := by
  obtain ⟨hdep, hoid, hs'⟩ := create_cross_chain_order_ok_inv s env
    token_out bp dev chain secret oid s' hok
  subst hoid
  subst hs'
  refine ⟨created_order s env token_out bp dev chain secret, ?_, rfl⟩
  simp [get_order, created_state, mapLookup_insert_self]

/-- Witness for C9: the creation in `state9` stores `some "alpha"` and
`get_order` exposes it. -/
theorem C9_witness :
    create_cross_chain_order state0 envB "0xdai" 42 50 1 "alpha" =
      .ok (1, state9) ∧
    (∃ o, get_order state9 1 = some o ∧ o.secret = some "alpha") :=
  ⟨by decide,
    C9_secret_stored state0 envB "0xdai" 42 50 1 "alpha" 1 state9 (by decide)⟩

/-- C3: the initial slippage written at creation is
`50 + chain_premium + 25 + size_premium`, with chain premium 25 for
chain 1, 50 for chain 137, 100 otherwise, and size premium 50 exactly
when the deposit exceeds `10²⁴`; concretely 175 bp for a `2·10²⁴`
deposit to chain 137 and 100 bp for a `5·10²³` deposit to chain 1. -/
theorem C3_initial_slippage (s : ContractState) (env : Env)
    (token_out : String) (bp dev chain : Nat) (secret : String)
    (oid : Nat) (s' : ContractState)
    (hok : create_cross_chain_order s env token_out bp dev chain secret =
      .ok (oid, s')) :
    (∃ o, get_order s' oid = some o ∧
      o.current_slippage =
        50 + (if chain = 1 then 25 else if chain = 137 then 50 else 100) +
          25 +
          (if 1000000000000000000000000 < env.attached_deposit
            then 50 else 0)) ∧
    calculate_cross_chain_slippage "near" token_out
      2000000000000000000000000 137 = 175 ∧
    calculate_cross_chain_slippage "near" token_out
      500000000000000000000000 1 = 100 := by
  obtain ⟨hdep, hoid, hs'⟩ := create_cross_chain_order_ok_inv s env
    token_out bp dev chain secret oid s' hok
  subst hoid
  subst hs'
  refine ⟨⟨created_order s env token_out bp dev chain secret, ?_, ?_⟩,
    by simp [calculate_cross_chain_slippage],
    by simp [calculate_cross_chain_slippage]⟩
  · simp [get_order, created_state, mapLookup_insert_self]
  · simp [created_order, calculate_cross_chain_slippage, gt_iff_lt]

/-- Witness for C3: the creation in `state3` (deposit `2·10²⁴`, target
chain 137) stores 175 bp. -/
theorem C3_witness :
    create_cross_chain_order state0 envA "0xdai" 42 50 137 "alpha" =
      .ok (1, state3) ∧
    (∃ o, get_order state3 1 = some o ∧ o.current_slippage = 175) ∧
    calculate_cross_chain_slippage "near" "0xdai"
      2000000000000000000000000 137 = 175 ∧
    calculate_cross_chain_slippage "near" "0xdai"
      500000000000000000000000 1 = 100 := by
  refine ⟨by decide, ?_, by decide, by decide⟩
  obtain ⟨⟨o, h1, h2⟩, -, -⟩ := C3_initial_slippage state0 envA "0xdai"
    42 50 137 "alpha" 1 state3 (by decide)
  refine ⟨o, h1, ?_⟩
  rw [h2]
  decide

/-- C5 counterexample: `max_slippage_deviation = 10001 > 10000` is
accepted: the creation returns order id 1 instead of failing with
`InvalidDeviation`. -/
theorem C5_counterexample :
    (10000:Nat) < 10001 ∧
    create_cross_chain_order state0 envOne "0xdai" 42 10001 1 "alpha" =
      .ok (1, state5) := by decide

/-- C5 amended: `create_cross_chain_order` validates only the attached
deposit: it fails (with the `ZeroDeposit` panic "Must attach NEAR
tokens") exactly when the attached value is 0, and succeeds for every
`max_slippage_deviation`, including values above 10000 — the source has
no `InvalidDeviation` check. -/
theorem C5_create_validates_only_deposit (s : ContractState) (env : Env)
    (token_out : String) (bp dev chain : Nat) (secret : String) :
    (env.attached_deposit = 0 →
      create_cross_chain_order s env token_out bp dev chain secret =
        .error "Must attach NEAR tokens") ∧
    (0 < env.attached_deposit →
      ∃ s', create_cross_chain_order s env token_out bp dev chain secret =
        .ok (s.next_order_id, s')) :=
  ⟨create_cross_chain_order_zero s env token_out bp dev chain secret,
   fun h => ⟨_, create_cross_chain_order_ok s env token_out bp dev chain
     secret h⟩⟩

/-- Witness for C5's amended theorem: with 1 yoctoNEAR attached and
`max_slippage_deviation = 10001` the creation succeeds, and with no
deposit it fails. -/
theorem C5_witness :
    (0 < envOne.attached_deposit ∧
      ∃ s', create_cross_chain_order state0 envOne "0xdai" 42 10001 1
        "alpha" = .ok (state0.next_order_id, s')) ∧
    (envZero.attached_deposit = 0 ∧
      create_cross_chain_order state0 envZero "0xdai" 42 50 1 "alpha" =
        .error "Must attach NEAR tokens") :=
  ⟨⟨by decide,
    (C5_create_validates_only_deposit state0 envOne "0xdai" 42 10001 1
      "alpha").2 (by decide)⟩,
   ⟨by decide,
    (C5_create_validates_only_deposit state0 envZero "0xdai" 42 50 1
      "alpha").1 (by decide)⟩⟩

/-- C4: contrary to the claim, the source never rejects a duplicate
hashlock: creating a second order with the same secret succeeds and
repoints the hashlock index from order 1 to order 2, while order 1 —
still `Active` with that same hashlock — is left behind, so the index
does come to resolve an existing order's hashlock to a different
order id. -/
theorem C4_duplicate_hashlock_not_rejected :
    create_cross_chain_order state0 envOne "0xdai" 42 50 1 "alpha" =
      .ok (1, state4a) ∧
    mapLookup state4a.hashlock_to_order hlAlpha = some 1 ∧
    create_cross_chain_order state4a envOne "0xusdc" 7 60 137 "alpha" =
      .ok (2, state4b) ∧
    mapLookup state4b.hashlock_to_order hlAlpha = some 2 ∧
    get_order state4b 1 =
      some (created_order state0 envOne "0xdai" 42 50 1 "alpha") ∧
    (created_order state0 envOne "0xdai" 42 50 1 "alpha").hashlock =
      hlAlpha ∧
    (created_order state0 envOne "0xdai" 42 50 1 "alpha").status =
      OrderStatus.Active := by decide

end AdaptiveCrossChain
